import Mathlib

/-!
Verification of the IAQ Exceedance Predictor (`app.py`).

The program collects nine categorical selections, encodes them into four
fixed-length numeric feature vectors, loads four pre-trained classifiers
(one per target parameter), and displays each classifier's label and
exceedance probability.  This file embeds the encoding and prediction
logic shallowly: form selections are the exact strings offered by the
selectboxes, feature encoding follows `binary`, `activity_pm25_map` and the
four `get_features_*` functions verbatim, and the prediction pass is
modelled in `Except`, where an uncaught Python exception is `Except.error`
and the bind of `Except` reproduces the script's abort-on-exception
control flow.  Classifier artifacts are opaque oracles with `predict` and
`predict_proba`; probabilities are modelled as rationals.
-/

/-- The selections of one form submission, each field holding the exact
string value returned by the corresponding selectbox in `app.py`. -/
structure FormState where
  occupancy_label : String
  activity : String
  window : String
  ac : String
  ach : String
  airpurifier : String
  outdoor_temp : String
  outdoor_pm : String
  outdoor_rh : String
deriving DecidableEq

/-- Options of the occupancy selectbox (app.py line 20). -/
def occupancy_options : List String :=
  ["One resident", "More than one residents"]

/-- Options of the activity selectbox (app.py lines 23-26). -/
def activity_options : List String :=
  ["Sleeping", "Sitting", "Watching TV", "Working",
   "Having Dinner", "Cleaning", "Dressing", "Cooking", "Smoking"]

/-- Options of the window selectbox (app.py line 27). -/
def window_options : List String := ["Closed", "Open"]

/-- Options of the A/C and air-purifier selectboxes (app.py lines 28, 32). -/
def onoff_options : List String := ["Off", "On"]

/-- Options of the ACH selectbox (app.py line 29). -/
def ach_options : List String :=
  ["Meet Thai regulation", "Not meet Thai regulation"]

/-- Options of the outdoor-temperature selectbox (app.py line 33). -/
def outdoor_temp_options : List String := ["≤29", ">29"]

/-- Options of the outdoor-PM2.5 selectbox (app.py line 34). -/
def outdoor_pm_options : List String := ["≤25", ">25"]

/-- Options of the outdoor-humidity selectbox (app.py line 35). -/
def outdoor_rh_options : List String := ["≤70", ">70"]

/-- A form state every field of which holds one of the options its
selectbox offers; by construction of the UI, every submitted state is
valid. -/
def FormState.valid (s : FormState) : Prop :=
  s.occupancy_label ∈ occupancy_options ∧
  s.activity ∈ activity_options ∧
  s.window ∈ window_options ∧
  s.ac ∈ onoff_options ∧
  s.ach ∈ ach_options ∧
  s.airpurifier ∈ onoff_options ∧
  s.outdoor_temp ∈ outdoor_temp_options ∧
  s.outdoor_pm ∈ outdoor_pm_options ∧
  s.outdoor_rh ∈ outdoor_rh_options

instance (s : FormState) : Decidable s.valid := by
  unfold FormState.valid; infer_instance

/-- `occupancy = 1 if occupancy_label == "One resident" else 2`
(app.py line 21). -/
def occupancy (s : FormState) : Nat :=
  if s.occupancy_label = "One resident" then 1 else 2

/-- `def binary(value, true_value): return 1 if value == true_value else 0`
(app.py lines 40-41). -/
def binary (value true_value : String) : Nat :=
  if value = true_value then 1 else 0

/-- The `activity_pm25_map` dict (app.py lines 44-54), as an association
list; a Python dict lookup `activity_pm25_map[activity]` is
`List.lookup`, with `none` standing for the KeyError branch. -/
def activity_pm25_map : List (String × Nat) :=
  [("Sleeping", 1), ("Sitting", 1), ("Watching TV", 1), ("Working", 1),
   ("Having Dinner", 1), ("Dressing", 1), ("Cleaning", 1),
   ("Cooking", 2), ("Smoking", 2)]

/-- `activity_pm25 = activity_pm25_map[activity]` (app.py line 55):
the module-level dict lookup, `none` when the key is missing. -/
def activity_pm25 (s : FormState) : Option Nat :=
  activity_pm25_map.lookup s.activity

/-- `get_features_temp` (app.py lines 58-63): a single-row matrix
`[[binary(outdoor_temp, "≤29"), binary(window, "Open"), binary(ac, "Off")]]`. -/
def get_features_temp (s : FormState) : List (List Nat) :=
  [[binary s.outdoor_temp "≤29",
    binary s.window "Open",
    binary s.ac "Off"]]

/-- `get_features_rh` (app.py lines 65-70). -/
def get_features_rh (s : FormState) : List (List Nat) :=
  [[binary s.outdoor_rh ">70",
    binary s.window "Open",
    binary s.ac "On"]]

/-- `get_features_co2` (app.py lines 72-77). -/
def get_features_co2 (s : FormState) : List (List Nat) :=
  [[occupancy s,
    binary s.window "Open",
    binary s.ach "Meet Thai regulation"]]

/-- `get_features_pm25` (app.py lines 79-85); `ap` is the module-level
`activity_pm25` value the function closes over. -/
def get_features_pm25 (s : FormState) (ap : Nat) : List (List Nat) :=
  [[binary s.outdoor_pm ">25",
    binary s.window "Open",
    ap,
    binary s.airpurifier "On"]]

/-- A loaded model artifact: an opaque classifier with `predict`
returning one label per row and `predict_proba` returning one row of
class probabilities per input row (spec §3, "Model artifact"). -/
structure Model where
  predict : List (List Nat) → List Nat
  predict_proba : List (List Nat) → List (List Rat)

/-- The exceptions the prediction pass can raise: `joblib.load` failures
(LoadError), list indexing off the end, and the dict KeyError of
`activity_pm25_map[activity]`. -/
inductive PredictError where
  | loadError (path : String)
  | indexError
  | keyError
deriving DecidableEq

/-- `def predict(model_path, features)` (app.py lines 88-92):
`model = joblib.load(model_path)`, then
`prediction = model.predict(features)[0]` and
`exceed_prob = model.predict_proba(features)[0][1]`.  `load` is the
environment giving `joblib.load`'s behaviour; each `[i]` is the fallible
Python indexing. -/
def predict (load : String → Except PredictError Model)
    (model_path : String) (features : List (List Nat)) :
    Except PredictError (Nat × Rat) :=
  match load model_path with
  | .error e => .error e
  | .ok model =>
    match (model.predict features).head? with
    | none => .error .indexError
    | some prediction =>
      match (model.predict_proba features).head? with
      | none => .error .indexError
      | some row =>
        match row[1]? with
        | none => .error .indexError
        | some exceed_prob => .ok (prediction, exceed_prob)

/-- The four results displayed after a successful submission
(app.py lines 117-120). -/
structure Results where
  temp : Nat × Rat
  rh : Nat × Rat
  pm25 : Nat × Rat
  co2 : Nat × Rat
deriving DecidableEq

/-- The artifact paths of the four predict calls (app.py lines 111-115). -/
def model_paths : List String :=
  ["model_Temp.pkl", "model_RH.pkl", "model_PM25.pkl", "model_CO2.pkl"]

/-- The script's prediction pass for one submission: the module-level
`activity_pm25_map[activity]` lookup (line 55) followed by the four
sequential `predict` calls of the `if submitted:` block (app.py lines
105-120), in source order temp, rh, pm25, co2.  The script has no
try/except, so any exception propagates and the results are shown only
when all four calls succeed — exactly the `Except` control flow here. -/
def runPredictions (load : String → Except PredictError Model)
    (s : FormState) : Except PredictError Results :=
  match activity_pm25_map.lookup s.activity with
  | none => .error .keyError
  | some ap =>
    match predict load "model_Temp.pkl" (get_features_temp s) with
    | .error e => .error e
    | .ok tempR =>
      match predict load "model_RH.pkl" (get_features_rh s) with
      | .error e => .error e
      | .ok rhR =>
        match predict load "model_PM25.pkl" (get_features_pm25 s ap) with
        | .error e => .error e
        | .ok pm25R =>
          match predict load "model_CO2.pkl" (get_features_co2 s) with
          | .error e => .error e
          | .ok co2R => .ok ⟨tempR, rhR, pm25R, co2R⟩

/-- Whether an `Except` computation finished without an exception. -/
def resultOk {α : Type} : Except PredictError α → Bool
  | .ok _ => true
  | .error _ => false

/-- The concrete scenario of spec §8: one resident, Sleeping, window
Closed, A/C On, ACH meets regulation, purifier Off, outdoor temp ">29",
outdoor PM "≤25", outdoor RH "≤70". -/
def scenarioA : FormState :=
  ⟨"One resident", "Sleeping", "Closed", "On", "Meet Thai regulation",
   "Off", ">29", "≤25", "≤70"⟩

/-- Claim C2: for every activity in the nine fixed categories, the
activity-severity encoding returns 1, except for "Cooking" and
"Smoking", for which it returns 2. -/
theorem activity_severity_values (a : String) (h : a ∈ activity_options) :
    activity_pm25_map.lookup a =
      some (if a = "Cooking" ∨ a = "Smoking" then 2 else 1) := by
  fin_cases h <;> rfl

/-- Witness for C2 at the concrete activity "Cooking". -/
theorem activity_severity_values_witness :
    "Cooking" ∈ activity_options ∧
      activity_pm25_map.lookup "Cooking" =
        some (if "Cooking" = "Cooking" ∨ "Cooking" = "Smoking" then 2 else 1) :=
  ⟨by decide, activity_severity_values "Cooking" (by decide)⟩

/-- Claim C3: on the scenario FormState (one resident, Sleeping, window
Closed, A/C On, ACH meets regulation, purifier Off, outdoor temp ">29",
outdoor PM "≤25", outdoor RH "≤70") the encoder produces temperature
vector [0,0,0], humidity vector [0,0,1], CO2 vector [1,0,1] and PM2.5
vector [0,0,1,0]. -/
theorem scenario_sleeping_vectors :
    get_features_temp scenarioA = [[0, 0, 0]] ∧
    get_features_rh scenarioA = [[0, 0, 1]] ∧
    get_features_co2 scenarioA = [[1, 0, 1]] ∧
    activity_pm25 scenarioA = some 1 ∧
    get_features_pm25 scenarioA 1 = [[0, 0, 1, 0]] := by
  refine ⟨?_, ?_, ?_, ?_, ?_⟩ <;> decide

/-- `binary` returns 1 exactly when the value equals the true value. -/
theorem binary_eq_one_iff (v t : String) : binary v t = 1 ↔ v = t := by
  unfold binary; split <;> simp_all

/-- `binary` returns 0 exactly when the value differs from the true value. -/
theorem binary_eq_zero_iff (v t : String) : binary v t = 0 ↔ v ≠ t := by
  unfold binary; split <;> simp_all

/-- Claim C4: for every valid FormState, the CO2 feature vector is
[occupancyCount, indicator(window open), indicator(ach meets regulation)]
in that order, with occupancyCount 1 for one resident and 2 for more
than one resident. -/
theorem co2_vector_components (s : FormState) (h : s.valid) :
    ∃ c w a, get_features_co2 s = [[c, w, a]] ∧
      (c = 1 ↔ s.occupancy_label = "One resident") ∧
      (c = 2 ↔ s.occupancy_label = "More than one residents") ∧
      (w = 1 ↔ s.window = "Open") ∧ (w = 0 ↔ s.window ≠ "Open") ∧
      (a = 1 ↔ s.ach = "Meet Thai regulation") ∧
      (a = 0 ↔ s.ach ≠ "Meet Thai regulation") := by
  obtain ⟨h1, -, -, -, -, -, -, -, -⟩ := h
  refine ⟨occupancy s, binary s.window "Open",
    binary s.ach "Meet Thai regulation", rfl, ?_, ?_,
    binary_eq_one_iff _ _, binary_eq_zero_iff _ _,
    binary_eq_one_iff _ _, binary_eq_zero_iff _ _⟩
  · unfold occupancy; split <;> simp_all
  · unfold occupancy
    split
    · rename_i hl
      constructor
      · intro hc; exact absurd hc (by decide)
      · intro hm; rw [hl] at hm; exact absurd hm (by decide)
    · rename_i hl
      constructor
      · intro _
        simp only [occupancy_options, List.mem_cons, List.not_mem_nil,
          or_false, List.mem_singleton] at h1
        rcases h1 with h1 | h1
        · exact absurd h1 hl
        · exact h1
      · intro _; rfl

/-- Witness for C4 at the concrete scenario FormState. -/
theorem co2_vector_components_witness :
    scenarioA.valid ∧
      (∃ c w a, get_features_co2 scenarioA = [[c, w, a]] ∧
        (c = 1 ↔ scenarioA.occupancy_label = "One resident") ∧
        (c = 2 ↔ scenarioA.occupancy_label = "More than one residents") ∧
        (w = 1 ↔ scenarioA.window = "Open") ∧
        (w = 0 ↔ scenarioA.window ≠ "Open") ∧
        (a = 1 ↔ scenarioA.ach = "Meet Thai regulation") ∧
        (a = 0 ↔ scenarioA.ach ≠ "Meet Thai regulation")) :=
  ⟨by decide, co2_vector_components scenarioA (by decide)⟩

/-- Claim C5: changing only activity (to Smoking) and airPurifier (to On)
changes only the PM2.5 vector's third element (to 2) and fourth element
(to 1); the temperature, humidity and CO2 vectors and the first two
PM2.5 elements are unchanged. -/
theorem smoking_purifier_frame (s : FormState) (ap : Nat)
    (_h : activity_pm25_map.lookup s.activity = some ap) :
    get_features_temp { s with activity := "Smoking", airpurifier := "On" } =
      get_features_temp s ∧
    get_features_rh { s with activity := "Smoking", airpurifier := "On" } =
      get_features_rh s ∧
    get_features_co2 { s with activity := "Smoking", airpurifier := "On" } =
      get_features_co2 s ∧
    activity_pm25 { s with activity := "Smoking", airpurifier := "On" } =
      some 2 ∧
    ((get_features_pm25 { s with activity := "Smoking", airpurifier := "On" }
        2).headD []).take 2 = ((get_features_pm25 s ap).headD []).take 2 ∧
    ((get_features_pm25 { s with activity := "Smoking", airpurifier := "On" }
        2).headD []).getD 2 0 = 2 ∧
    ((get_features_pm25 { s with activity := "Smoking", airpurifier := "On" }
        2).headD []).getD 3 0 = 1 :=
  ⟨rfl, rfl, rfl, rfl, rfl, rfl, rfl⟩

/-- Witness for C5 at the concrete scenario FormState with its severity 1. -/
theorem smoking_purifier_frame_witness :
    activity_pm25_map.lookup scenarioA.activity = some 1 ∧
      get_features_co2
          { scenarioA with activity := "Smoking", airpurifier := "On" } =
        get_features_co2 scenarioA :=
  ⟨by decide, (smoking_purifier_frame scenarioA 1 (by decide)).2.2.1⟩

/-- Claim C6: for every FormState (and any activity severity), the
temperature, humidity and CO2 feature matrices are one row of 3 elements
and the PM2.5 feature matrix is one row of 4 elements. -/
theorem feature_vector_dimensions (s : FormState) (ap : Nat) :
    (get_features_temp s).length = 1 ∧
    ((get_features_temp s).headD []).length = 3 ∧
    (get_features_rh s).length = 1 ∧
    ((get_features_rh s).headD []).length = 3 ∧
    (get_features_co2 s).length = 1 ∧
    ((get_features_co2 s).headD []).length = 3 ∧
    (get_features_pm25 s ap).length = 1 ∧
    ((get_features_pm25 s ap).headD []).length = 4 :=
  ⟨rfl, rfl, rfl, rfl, rfl, rfl, rfl, rfl⟩

/-- Claim C7: encoding is pure and deterministic — it is a function of
the FormState alone, so identical FormStates yield identical feature
vectors and identical activity-severity lookups on every run. -/
theorem encoder_deterministic (s1 s2 : FormState) (ap : Nat) (h : s1 = s2) :
    get_features_temp s1 = get_features_temp s2 ∧
    get_features_rh s1 = get_features_rh s2 ∧
    get_features_co2 s1 = get_features_co2 s2 ∧
    activity_pm25 s1 = activity_pm25 s2 ∧
    get_features_pm25 s1 ap = get_features_pm25 s2 ap := by
  subst h; exact ⟨rfl, rfl, rfl, rfl, rfl⟩

/-- Witness for C7 at the concrete scenario FormState. -/
theorem encoder_deterministic_witness :
    get_features_temp scenarioA = get_features_temp scenarioA ∧
    get_features_rh scenarioA = get_features_rh scenarioA ∧
    get_features_co2 scenarioA = get_features_co2 scenarioA ∧
    activity_pm25 scenarioA = activity_pm25 scenarioA ∧
    get_features_pm25 scenarioA 1 = get_features_pm25 scenarioA 1 :=
  encoder_deterministic scenarioA scenarioA 1 rfl

/-- Claim C8: `predict` returns exactly the artifact's own predicted
label (first element of `model.predict`) and the probability the
artifact assigns to the "exceeds" class (second entry of the first row
of `model.predict_proba`); no relation between label and probability is
imposed, so the label is never re-derived from a 0.5 threshold. -/
theorem predict_defers_to_artifact
    (load : String → Except PredictError Model) (path : String)
    (features : List (List Nat)) (model : Model) (label : Nat)
    (row : List Rat) (p : Rat)
    (hload : load path = .ok model)
    (hpred : (model.predict features).head? = some label)
    (hrow : (model.predict_proba features).head? = some row)
    (hp : row[1]? = some p) :
    predict load path features = .ok (label, p) := by
  unfold predict
  simp only [hload, hpred, hrow, hp]

/-- A concrete artifact whose predicted label is 0 although its
"exceeds" probability is 9/10: a 0.5-threshold implementation would
return label 1 here. -/
def wModel : Model :=
  ⟨fun _ => [0], fun _ => [[1/10, 9/10]]⟩

/-- A load environment that always yields `wModel`. -/
def wLoad : String → Except PredictError Model :=
  fun _ => .ok wModel

/-- Witness for C8: on `wModel` the returned label is the artifact's 0
even though the returned exceedance probability 9/10 is above 1/2. -/
theorem predict_defers_to_artifact_witness :
    predict wLoad "model_Temp.pkl" [[0, 0, 0]] = .ok (0, 9/10) ∧
      (1/2 : Rat) ≤ 9/10 :=
  ⟨predict_defers_to_artifact wLoad "model_Temp.pkl" [[0, 0, 0]] wModel 0
      [1/10, 9/10] (9/10) rfl rfl rfl rfl, by norm_num⟩

/-- Claim C9: for every valid FormState the activity-severity dictionary
lookup succeeds (the KeyError branch is unreachable) and the whole
encoding, PM2.5 vector included, is produced by pure total functions. -/
theorem encoding_total (s : FormState) (h : s.valid) :
    ∃ ap, activity_pm25 s = some ap ∧
      get_features_pm25 s ap =
        [[binary s.outdoor_pm ">25", binary s.window "Open", ap,
          binary s.airpurifier "On"]] := by
  obtain ⟨-, h2, -, -, -, -, -, -, -⟩ := h
  simp only [activity_options, List.mem_cons, List.not_mem_nil,
    or_false, List.mem_singleton] at h2
  unfold activity_pm25
  rcases h2 with h2 | h2 | h2 | h2 | h2 | h2 | h2 | h2 | h2 <;>
    rw [h2] <;> exact ⟨_, rfl, rfl⟩

/-- Witness for C9 at the concrete scenario FormState. -/
theorem encoding_total_witness :
    scenarioA.valid ∧
      ∃ ap, activity_pm25 scenarioA = some ap ∧
        get_features_pm25 scenarioA ap =
          [[binary scenarioA.outdoor_pm ">25", binary scenarioA.window "Open",
            ap, binary scenarioA.airpurifier "On"]] :=
  ⟨by decide, encoding_total scenarioA (by decide)⟩

/-- Every value stored in `activity_pm25_map` is 1 or 2, so every
successful severity lookup yields 1 or 2. -/
theorem activity_map_values (a : String) (n : Nat)
    (h : activity_pm25_map.lookup a = some n) : n = 1 ∨ n = 2 := by
  simp only [activity_pm25_map, List.lookup] at h
  repeat' split at h
  all_goals simp_all

/-- Claim C10: `binary` only returns 0 or 1; every element of every
feature vector lies in {0,1,2}: each indicator position is at most 1,
the CO2 occupancy element is 1 or 2, and the PM2.5 activity-severity
element is 1 or 2 whenever the severity lookup succeeded. -/
theorem feature_element_ranges (v t : String) (s : FormState) (ap : Nat)
    (h : activity_pm25_map.lookup s.activity = some ap) :
    (binary v t = 0 ∨ binary v t = 1) ∧
    ((get_features_temp s).headD []).getD 0 0 ≤ 1 ∧
    ((get_features_temp s).headD []).getD 1 0 ≤ 1 ∧
    ((get_features_temp s).headD []).getD 2 0 ≤ 1 ∧
    ((get_features_rh s).headD []).getD 0 0 ≤ 1 ∧
    ((get_features_rh s).headD []).getD 1 0 ≤ 1 ∧
    ((get_features_rh s).headD []).getD 2 0 ≤ 1 ∧
    (((get_features_co2 s).headD []).getD 0 0 = 1 ∨
      ((get_features_co2 s).headD []).getD 0 0 = 2) ∧
    ((get_features_co2 s).headD []).getD 1 0 ≤ 1 ∧
    ((get_features_co2 s).headD []).getD 2 0 ≤ 1 ∧
    ((get_features_pm25 s ap).headD []).getD 0 0 ≤ 1 ∧
    ((get_features_pm25 s ap).headD []).getD 1 0 ≤ 1 ∧
    (((get_features_pm25 s ap).headD []).getD 2 0 = 1 ∨
      ((get_features_pm25 s ap).headD []).getD 2 0 = 2) ∧
    ((get_features_pm25 s ap).headD []).getD 3 0 ≤ 1 := by
  have hb : ∀ x y : String, binary x y = 0 ∨ binary x y = 1 := by
    intro x y; unfold binary; split
    · exact Or.inr rfl
    · exact Or.inl rfl
  have hle : ∀ x y : String, binary x y ≤ 1 := by
    intro x y; rcases hb x y with hxy | hxy <;> omega
  have hocc : occupancy s = 1 ∨ occupancy s = 2 := by
    unfold occupancy; split
    · exact Or.inl rfl
    · exact Or.inr rfl
  exact ⟨hb v t, hle _ _, hle _ _, hle _ _, hle _ _, hle _ _, hle _ _,
    hocc, hle _ _, hle _ _, hle _ _, hle _ _,
    activity_map_values s.activity ap h, hle _ _⟩

/-- Witness for C10 at concrete strings and the scenario FormState. -/
theorem feature_element_ranges_witness :
    activity_pm25_map.lookup scenarioA.activity = some 1 ∧
      (binary "Open" "Open" = 0 ∨ binary "Open" "Open" = 1) :=
  ⟨by decide,
    (feature_element_ranges "Open" "Open" scenarioA 1 (by decide)).1⟩

/-- If a `predict` call finished without an exception, the artifact load
at its path succeeded. -/
theorem predict_ok_load_ok
    (load : String → Except PredictError Model) (path : String)
    (features : List (List Nat)) (r : Nat × Rat)
    (h : predict load path features = .ok r) :
    ∃ m, load path = .ok m := by
  unfold predict at h
  split at h
  · exact Except.noConfusion h
  · rename_i m hm
    exact ⟨m, hm⟩

/-- An always-succeeding artifact used as the benign environment. -/
def okModel : Model :=
  ⟨fun _ => [0], fun _ => [[9/10, 1/10]]⟩

/-- A load environment in which only the temperature artifact is missing:
loading "model_Temp.pkl" raises a LoadError and every other path loads
`okModel`. -/
def failTempLoad : String → Except PredictError Model :=
  fun p =>
    if p = "model_Temp.pkl" then .error (.loadError "model_Temp.pkl")
    else .ok okModel

/-- Counterexample to C1: with only the temperature artifact failing to
load (all other artifacts healthy), the submission produces no results
at all — the script aborts with the LoadError, so the other three
predictions are neither computed nor displayed. -/
theorem load_failure_not_isolated :
    runPredictions failTempLoad scenarioA =
      .error (.loadError "model_Temp.pkl") ∧
    resultOk (runPredictions failTempLoad scenarioA) = false := by
  constructor <;> rfl

/-- Claim C1 amended: the predict calls run sequentially with no
exception handling, so a load failure in any one of the four predict
calls aborts the whole prediction pass — no prediction is displayed for
any target parameter. -/
theorem any_load_failure_aborts_run
    (load : String → Except PredictError Model) (s : FormState) (p : String)
    (hp : p ∈ model_paths) (hfail : ∀ m, load p ≠ .ok m) :
    resultOk (runPredictions load s) = false := by
  cases hrun : runPredictions load s with
  | error e => rfl
  | ok r =>
    exfalso
    unfold runPredictions at hrun
    split at hrun
    · exact Except.noConfusion hrun
    · rename_i ap hap
      split at hrun
      · exact Except.noConfusion hrun
      · rename_i tempR htemp
        split at hrun
        · exact Except.noConfusion hrun
        · rename_i rhR hrh
          split at hrun
          · exact Except.noConfusion hrun
          · rename_i pm25R hpm
            split at hrun
            · exact Except.noConfusion hrun
            · rename_i co2R hco2
              simp only [model_paths, List.mem_cons, List.not_mem_nil,
                or_false, List.mem_singleton] at hp
              rcases hp with hp | hp | hp | hp <;> subst hp
              · obtain ⟨m, hm⟩ := predict_ok_load_ok _ _ _ _ htemp
                exact hfail m hm
              · obtain ⟨m, hm⟩ := predict_ok_load_ok _ _ _ _ hrh
                exact hfail m hm
              · obtain ⟨m, hm⟩ := predict_ok_load_ok _ _ _ _ hpm
                exact hfail m hm
              · obtain ⟨m, hm⟩ := predict_ok_load_ok _ _ _ _ hco2
                exact hfail m hm

/-- Witness for the amended C1 at the concrete failing environment. -/
theorem any_load_failure_aborts_run_witness :
    "model_Temp.pkl" ∈ model_paths ∧
      resultOk (runPredictions failTempLoad scenarioA) = false :=
  ⟨by decide,
    any_load_failure_aborts_run failTempLoad scenarioA "model_Temp.pkl"
      (by decide)
      (by
        intro m hm
        rw [show failTempLoad "model_Temp.pkl" =
          Except.error (PredictError.loadError "model_Temp.pkl") from rfl] at hm
        exact Except.noConfusion hm)⟩
